import Mathlib

/-!
Shallow embedding of the reorder-planning pipeline in `run.py` of the
`trace` repository.  Dates are modelled as integers (one unit = one
calendar day; `pd.Timestamp` arithmetic is day arithmetic after
`normalize()`), and all quantities/costs as rationals (the Python floats
idealised as exact arithmetic).  Tables are lists of records; pandas
merges/lookups become list searches.  The bundled WebShop storefront demo
is unrelated to this engine and is not modelled.
-/

namespace Trace

/-- `LEAD_TIME_DAYS = 3` (run.py line 6). -/
def LEAD_TIME_DAYS : Int := 3

/-- `RECURRENCE_DAYS = 7` (run.py line 7): horizon length in days. -/
def RECURRENCE_DAYS : Nat := 7

/-- A purchase-ledger row: `(ingredient, unit, qty, unit_cost_gbp, merchant,
txn_date)` as in the `weekNbank.csv` files. -/
structure Txn where
  ingredient : String
  unit : String
  qty : Rat
  unit_cost_gbp : Rat
  merchant : String
  txn_date : Int
deriving DecidableEq

/-- A row of the `actual` usage table produced by the Usage Translator
(`pos_to_ingredients` output, aggregated per date and ingredient; the unit
column is only a group-by key there and is dropped here). -/
structure UsageRow where
  date : Int
  ingredient : String
  usage : Rat
deriving DecidableEq

/-- A row of the `forecast` table (date, ingredient, usage); the unit column
added at run.py line 130 is display-only downstream and is dropped here. -/
structure ForecastRow where
  date : Int
  ingredient : String
  usage : Rat
deriving DecidableEq

/-- One row of the per-ingredient slice of the daily usage grid: the fields
of `daily` that the reorder planner reads (run.py lines 265-295). -/
structure DayRow where
  date : Int
  daily_usage : Rat
  delivery_qty : Rat
deriving DecidableEq

/-- A reorder recommendation, the dict appended at run.py lines 304-314. -/
structure ReorderRec where
  ingredient : String
  supplier : String
  order_date : Int
  delivery_date : Int
  order_qty : Rat
  unit : String
  unit_cost_gbp : Rat
  estimated_cost_gbp : Rat
  stockout_date_if_no_order : Int
deriving DecidableEq

/-- The immutable inputs of one run, as seen by the stages the claims are
about: `start` is `start_date` (in the source, the minimum forecast date),
`bank` is the week-3 ledger used for latest-buy data and units, `allBanks`
the concatenation of all three weekly ledgers, `actual` the Usage
Translator output, `forecast` the Forecast Builder output. -/
structure Inputs where
  start : Int
  bank : List Txn
  allBanks : List Txn
  actual : List UsageRow
  forecast : List ForecastRow

/-- Python's substring test `pat in s` on the underlying character lists:
auxiliary starts-with test. -/
def charsStartWith : List Char → List Char → Bool
  | [], _ => true
  | _ :: _, [] => false
  | a :: as, b :: bs => a = b && charsStartWith as bs

/-- Python's substring test `pat in s` on character lists. -/
def charsContain (pat : List Char) : List Char → Bool
  | [] => charsStartWith pat []
  | c :: rest => charsStartWith pat (c :: rest) || charsContain pat rest

/-- Python's `pat in s` for strings. -/
def pyIn (pat s : String) : Bool := charsContain pat.toList s.toList

/-- `ingredient_units` (run.py line 117): unit of the first-listed week-3
bank row of the ingredient (`groupby("ingredient")["unit"].first()`). -/
def ingredientUnits (bank : List Txn) (ing : String) : Option String :=
  (bank.find? (fun t => t.ingredient == ing)).map (fun t => t.unit)

/-- The keyword/category branch of `infer_unit` (run.py lines 122-128),
reached only when the ingredient has no week-3 bank row. -/
def heuristicUnit (ing : String) : String :=
  if pyIn "Patty" ing = true ∨ pyIn "Filling" ing = true ∨
      ing ∈ ["Lettuce", "Pickles", "Onion", "Potatoes", "Chicken Nugget", "Fish Fillet"] then
    "g"
  else if ing ∈ ["Milk", "Ketchup", "Mustard", "Mayonnaise"] then
    "ml"
  else
    "unit"

/-- `infer_unit` (run.py lines 119-128): the bank unit when present, else
the keyword/category heuristic. -/
def infer_unit (bank : List Txn) (ing : String) : String :=
  match ingredientUnits bank ing with
  | some u => u
  | none => heuristicUnit ing

/-- `latest_buy` (run.py lines 140-147): the ingredient's most recent week-3
transaction — stable sort by `txn_date` then take the tail, i.e. the last
occurrence of the maximal transaction date. -/
def latestBuy (bank : List Txn) (ing : String) : Option Txn :=
  (bank.filter (fun t => t.ingredient == ing)).foldl
    (fun acc t =>
      match acc with
      | none => some t
      | some b => if b.txn_date ≤ t.txn_date then some t else some b)
    none

/-- Insertion step of an elementary stable insertion sort. -/
def insertLe (le : α → α → Bool) (a : α) : List α → List α
  | [] => [a]
  | b :: rest => if le a b then a :: b :: rest else b :: insertLe le a rest

/-- Elementary insertion sort (ascending), modelling Python's `sorted` /
pandas sorts on the small lists involved. -/
def insertionSort (le : α → α → Bool) (l : List α) : List α :=
  l.foldr (insertLe le) []

/-- pandas `Series.median`: sort ascending, middle element for odd length,
mean of the two middle elements for even length; 0 for the empty series
(the source never queries the median of an empty series: absent keys fall
back to 0 via `dict.get(ing, 0.0)`). -/
def median (l : List Rat) : Rat :=
  let s := insertionSort (fun a b => a ≤ b) l
  if s.length = 0 then 0
  else if s.length % 2 = 1 then s.getD (s.length / 2) 0
  else (s.getD (s.length / 2 - 1) 0 + s.getD (s.length / 2) 0) / 2

/-- Summed ledger deliveries landing on day `d` for an ingredient
(run.py lines 189-194): every transaction of the full purchase history
delivers on `txn_date + LEAD_TIME_DAYS`, and quantities are summed per
(delivery date, ingredient); a key with no transactions sums to 0,
matching the `fillna(0.0)` / `dict.get(..., 0.0)` defaults. -/
def deliveryQty (allBanks : List Txn) (d : Int) (ing : String) : Rat :=
  ((allBanks.filter (fun t => t.txn_date + LEAD_TIME_DAYS == d && t.ingredient == ing)).map
    (fun t => t.qty)).sum

/-- Lookup of one day's actual usage for one ingredient (the
`actual_lookup` dict and the grid's left-merge of `actual`; `(date,
ingredient)` keys are unique in the translator's aggregated output, so
first-match is the dict/merge semantics). -/
def lookupActual (actual : List UsageRow) (d : Int) (ing : String) : Option Rat :=
  (actual.find? (fun r => r.date == d && r.ingredient == ing)).map (fun r => r.usage)

/-- `actual_lookup.get((d, ing), 0.0)` (run.py line 243). -/
def actualUsed (actual : List UsageRow) (d : Int) (ing : String) : Rat :=
  (lookupActual actual d ing).getD 0

/-- `pd.date_range(a, b - 1)`: the days `a, a+1, ..., b-1` (empty when
`b ≤ a`), the replay window of the inventory estimator (run.py line 240). -/
def simDates (a b : Int) : List Int :=
  (List.range (b - a).toNat).map (fun k => a + k)

/-- `compute_current_inventory` (run.py lines 203-247) for one ingredient:
0 without transaction history; 0 when the last week-3 transaction's
delivery (`txn_date + LEAD_TIME_DAYS`) lands strictly after `asof`
("hasn't arrived by asof morning"); otherwise start from that
transaction's quantity and replay each day from its delivery date up to
the day before `asof`, adding ledger deliveries and subtracting recorded
actual usage. -/
def computeCurrentInventory (asof : Int) (bank allBanks : List Txn)
    (actual : List UsageRow) (ing : String) : Rat :=
  match latestBuy bank ing with
  | none => 0
  | some lb =>
    if asof < lb.txn_date + LEAD_TIME_DAYS then 0
    else
      (simDates (lb.txn_date + LEAD_TIME_DAYS) asof).foldl
        (fun inv d => inv + deliveryQty allBanks d ing - actualUsed actual d ing)
        lb.qty

/-- The ingredient universe (run.py line 156): the union of the
forecast's, the actual-usage table's and the full ledger's ingredient
names, deduplicated and sorted ascending. -/
def ingredientsOf (inputs : Inputs) : List String :=
  insertionSort (fun a b => a ≤ b)
    ((inputs.forecast.map (fun r => r.ingredient) ++
      inputs.actual.map (fun r => r.ingredient) ++
      inputs.allBanks.map (fun t => t.ingredient)).dedup)

/-- The staggering multiplier `0.3 + (i % 10) * 0.12` (run.py line 254)
applied to the i-th ingredient of the sorted ingredient list. -/
def variationFactor (i : Nat) : Rat := 3 / 10 + (i % 10 : Nat) * (12 / 100)

/-- `current_inventory` (run.py lines 250-255): the estimator's balance
scaled by the ingredient's staggering factor and clamped at 0.  This is
the starting inventory every later stage reads. -/
def currentInventory (inputs : Inputs) (ing : String) : Rat :=
  max 0 (computeCurrentInventory inputs.start inputs.bank inputs.allBanks inputs.actual ing *
    variationFactor ((ingredientsOf inputs).indexOf ing))

/-- The horizon's calendar days `start, ..., start + RECURRENCE_DAYS - 1`
(run.py lines 152-154). -/
def horizonDates (start : Int) : List Int :=
  (List.range RECURRENCE_DAYS).map (fun k => start + (k : Int))

/-- Lookup of one day's forecast usage for one ingredient (the grid's
left-merge of `forecast`, whose `(date, ingredient)` keys are unique). -/
def lookupForecast (forecast : List ForecastRow) (d : Int) (ing : String) : Option Rat :=
  (forecast.find? (fun r => r.date == d && r.ingredient == ing)).map (fun r => r.usage)

/-- `typical_daily` (run.py lines 158-160) with the `get(ing, 0.0)`
default folded in: the median of the ingredient's actual-usage series,
0 when the series is empty. -/
def typicalDaily (actual : List UsageRow) (ing : String) : Rat :=
  median ((actual.filter (fun r => r.ingredient == ing)).map (fun r => r.usage))

/-- `fallback_usage` (run.py lines 177-182): forecast value if present,
else actual value if present, else the typical (median) value. -/
def fallbackUsage (forecastVal actualVal : Option Rat) (typical : Rat) : Rat :=
  match forecastVal with
  | some x => x
  | none =>
    match actualVal with
    | some x => x
    | none => typical

/-- `daily["daily_usage"]` for one (date, ingredient) cell (run.py
line 184). -/
def dailyUsage (inputs : Inputs) (d : Int) (ing : String) : Rat :=
  fallbackUsage (lookupForecast inputs.forecast d ing) (lookupActual inputs.actual d ing)
    (typicalDaily inputs.actual ing)

/-- The per-ingredient slice of the daily usage grid, in chronological
order (run.py lines 162-197 build it; line 260 sorts by date). -/
def gridRows (inputs : Inputs) (ing : String) : List DayRow :=
  (horizonDates inputs.start).map (fun d =>
    { date := d
      daily_usage := dailyUsage inputs d ing
      delivery_qty := deliveryQty inputs.allBanks d ing })

/-- Stockout detection (run.py lines 270-276): replay
`inv += delivery_qty - daily_usage` over the chronological rows and return
the first date on which the running inventory is negative. -/
def findStockout : Rat → List DayRow → Option Int
  | _, [] => none
  | inv, r :: rest =>
    if inv + r.delivery_qty - r.daily_usage < 0 then some r.date
    else findStockout (inv + r.delivery_qty - r.daily_usage) rest

/-- The running balances of the do-nothing replay, one per horizon day
(the successive values of `inv` in run.py lines 270-274). -/
def replayBalances : Rat → List DayRow → List Rat
  | _, [] => []
  | inv, r :: rest =>
    (inv + r.delivery_qty - r.daily_usage) ::
      replayBalances (inv + r.delivery_qty - r.daily_usage) rest

/-- `inv_at_delivery_morning` (run.py lines 286-292): replay only the rows
strictly before the delivery date (the loop breaks at the first row on or
after it). -/
def invAtDeliveryMorning (startInv : Rat) (deliveryDate : Int) (rows : List DayRow) : Rat :=
  (rows.takeWhile (fun r => r.date < deliveryDate)).foldl
    (fun inv r => inv + r.delivery_qty - r.daily_usage) startInv

/-- `remaining_need` (run.py line 294): total usage of the horizon days on
or after the delivery date. -/
def remainingNeed (deliveryDate : Int) (rows : List DayRow) : Rat :=
  ((rows.filter (fun r => deliveryDate ≤ r.date)).map (fun r => r.daily_usage)).sum

/-- Round-half-to-even to an integer, the tie rule of Python's `round`. -/
def roundHalfEven (q : Rat) : Int :=
  if q - ⌊q⌋ < 1 / 2 then ⌊q⌋
  else if (1 : Rat) / 2 < q - ⌊q⌋ then ⌊q⌋ + 1
  else if ⌊q⌋ % 2 = 0 then ⌊q⌋ else ⌊q⌋ + 1

/-- Python's `round(x, 2)` idealised over the rationals. -/
def round2 (q : Rat) : Rat := (roundHalfEven (q * 100) : Rat) / 100

/-- The reorder planner for one ingredient (the body of the loop at run.py
lines 265-314): no recommendation without a stockout; otherwise order
`LEAD_TIME_DAYS` before the stockout so the delivery lands on the stockout
date, and size the order as
`max(0, remaining_need - max(0, inv_at_delivery_morning))`.  Supplier,
unit and unit cost come from the latest week-3 buy, with the
"Unknown"/`infer_unit`/0 fallbacks of lines 300-302 (the source's
`ingredient_units.get(ing) or infer_unit(ing)` equals `infer_unit` since
`infer_unit` consults `ingredient_units` first). -/
def planIngredient (bank : List Txn) (ing : String) (startInv : Rat)
    (rows : List DayRow) : Option ReorderRec :=
  match findStockout startInv rows with
  | none => none
  | some stockoutDate =>
    let orderDate := stockoutDate - LEAD_TIME_DAYS
    let deliveryDate := orderDate + LEAD_TIME_DAYS
    let invMorning := invAtDeliveryMorning startInv deliveryDate rows
    let need := remainingNeed deliveryDate rows
    let orderQty := max 0 (need - max 0 invMorning)
    let unitCost := match latestBuy bank ing with | some b => b.unit_cost_gbp | none => 0
    some
      { ingredient := ing
        supplier := match latestBuy bank ing with | some b => b.merchant | none => "Unknown"
        order_date := orderDate
        delivery_date := deliveryDate
        order_qty := round2 orderQty
        unit := match latestBuy bank ing with | some b => b.unit | none => infer_unit bank ing
        unit_cost_gbp := unitCost
        estimated_cost_gbp := round2 (orderQty * unitCost)
        stockout_date_if_no_order := stockoutDate }

/-- The emitted recommendation set `reorder_rows` (run.py lines 263-314):
one planner pass per ingredient of the sorted universe, keeping the
produced recommendations.  (`reorder_plan` only re-sorts these rows.) -/
def reorderRows (inputs : Inputs) : List ReorderRec :=
  (ingredientsOf inputs).filterMap (fun ing =>
    planIngredient inputs.bank ing (currentInventory inputs ing) (gridRows inputs ing))

/-! Concrete instances used by the scenario theorem, the counterexamples
and the witnesses. -/

/-- The grid of the spec's literal scenario: horizon days D1..D7 rendered
as dates 1..7, `daily_usage = 50` and `delivery_qty = 0` on every day. -/
def rowsC1 : List DayRow :=
  (List.range 7).map (fun k => { date := (1 : Int) + k, daily_usage := 50, delivery_qty := 0 })

/-- A week-3 transaction for "Bun" carrying the scenario's
`unit_cost = 0.5`. -/
def txnC1 : Txn :=
  { ingredient := "Bun", unit := "unit", qty := 100, unit_cost_gbp := 1 / 2,
    merchant := "Supplier", txn_date := -10 }

/-- Week-3 ledger of the scenario. -/
def bankC1 : List Txn := [txnC1]

/-- A transaction whose delivery (`txn_date + 3 = 3`) lands exactly on the
horizon start used below. -/
def txnC2 : Txn :=
  { ingredient := "A", unit := "g", qty := 5, unit_cost_gbp := 1, merchant := "S", txn_date := 0 }

/-- Ledger containing only `txnC2`. -/
def bankC2 : List Txn := [txnC2]

/-- A transaction whose delivery (`txn_date + 3 = 8`) lands strictly after
the horizon start used below. -/
def txnW2 : Txn :=
  { ingredient := "A", unit := "g", qty := 7, unit_cost_gbp := 1, merchant := "S", txn_date := 5 }

/-- Ledger containing only `txnW2`. -/
def bankW2 : List Txn := [txnW2]

/-- A transaction delivered (`txn_date + 3 = -2`) before the horizon start
0 used below, with quantity 10. -/
def txnC3 : Txn :=
  { ingredient := "A", unit := "g", qty := 10, unit_cost_gbp := 1, merchant := "S", txn_date := -5 }

/-- A run whose only ingredient "A" has the single transaction `txnC3`:
the estimator's replayed balance is 20 (10 start + the same delivery
summed again on day -2 by the ledger), but the pipeline's starting
inventory is `max 0 (20 * 0.3) = 6`. -/
def inputsC3 : Inputs :=
  { start := 0, bank := [txnC3], allBanks := [txnC3], actual := [], forecast := [] }

/-- Earlier-listed, earlier-dated transaction of "A" with unit "g". -/
def txnC4a : Txn :=
  { ingredient := "A", unit := "g", qty := 1, unit_cost_gbp := 1, merchant := "S", txn_date := 5 }

/-- Later-listed, most recent transaction of "A" with unit "ml". -/
def txnC4b : Txn :=
  { ingredient := "A", unit := "ml", qty := 1, unit_cost_gbp := 1, merchant := "S", txn_date := 9 }

/-- A ledger where the first-listed transaction of "A" is not the most
recent one and the two carry different units. -/
def bankC4 : List Txn := [txnC4a, txnC4b]

/-- A single transaction of "B" with unit "kg". -/
def txnW4 : Txn :=
  { ingredient := "B", unit := "kg", qty := 2, unit_cost_gbp := 1, merchant := "S", txn_date := 3 }

/-- Ledger containing only `txnW4`. -/
def bankW4 : List Txn := [txnW4]

/-- A run with one ingredient "A", no purchase history, and a forecast
demand of 5 on the first horizon day only: the planner stocks out on
day 10 and emits exactly one recommendation. -/
def inputsW : Inputs :=
  { start := 10, bank := [], allBanks := [], actual := [],
    forecast := [{ date := 10, ingredient := "A", usage := 5 }] }

/-- The single recommendation emitted on `inputsW`. -/
def recW : ReorderRec :=
  { ingredient := "A", supplier := "Unknown", order_date := 7, delivery_date := 10,
    order_qty := 5, unit := "unit", unit_cost_gbp := 0, estimated_cost_gbp := 0,
    stockout_date_if_no_order := 10 }

/-- The first grid row of ingredient "A" on `inputsW`. -/
def rowW : DayRow := { date := 10, daily_usage := 5, delivery_qty := 0 }

/-- A run with one ingredient "A" (registered by an old transaction in the
full ledger but absent from week 3), no usage and no forecast: its
do-nothing replay stays at 0 on every horizon day. -/
def inputsW6 : Inputs :=
  { start := 0, bank := [],
    allBanks := [{ ingredient := "A", unit := "g", qty := 1, unit_cost_gbp := 1,
                   merchant := "S", txn_date := -100 }],
    actual := [], forecast := [] }

/-! Helper lemmas. -/

/-- A recommendation produced by the planner carries the ingredient it was
planned for. -/
theorem plan_some_ingredient {bank : List Txn} {ing : String} {startInv : Rat}
    {rows : List DayRow} {r : ReorderRec}
    (h : planIngredient bank ing startInv rows = some r) : r.ingredient = ing := by
  unfold planIngredient at h
  cases hf : findStockout startInv rows with
  | none => rw [hf] at h; exact Option.noConfusion h
  | some st =>
    rw [hf] at h
    cases Option.some.inj h
    rfl

/-- Elimination form of a successful planner run: the stockout date it
found, and the emitted record written out field by field. -/
theorem plan_some_elim {bank : List Txn} {ing : String} {startInv : Rat}
    {rows : List DayRow} {r : ReorderRec}
    (h : planIngredient bank ing startInv rows = some r) :
    ∃ st, findStockout startInv rows = some st ∧
      r = { ingredient := ing
            supplier := match latestBuy bank ing with | some b => b.merchant | none => "Unknown"
            order_date := st - LEAD_TIME_DAYS
            delivery_date := st - LEAD_TIME_DAYS + LEAD_TIME_DAYS
            order_qty := round2 (max 0 (remainingNeed (st - LEAD_TIME_DAYS + LEAD_TIME_DAYS) rows -
              max 0 (invAtDeliveryMorning startInv (st - LEAD_TIME_DAYS + LEAD_TIME_DAYS) rows)))
            unit := match latestBuy bank ing with | some b => b.unit | none => infer_unit bank ing
            unit_cost_gbp := match latestBuy bank ing with | some b => b.unit_cost_gbp | none => 0
            estimated_cost_gbp := round2 (max 0 (remainingNeed (st - LEAD_TIME_DAYS + LEAD_TIME_DAYS) rows -
              max 0 (invAtDeliveryMorning startInv (st - LEAD_TIME_DAYS + LEAD_TIME_DAYS) rows)) *
              match latestBuy bank ing with | some b => b.unit_cost_gbp | none => 0)
            stockout_date_if_no_order := st } := by
  unfold planIngredient at h
  cases hf : findStockout startInv rows with
  | none => rw [hf] at h; exact Option.noConfusion h
  | some st =>
    rw [hf] at h
    exact ⟨st, rfl, (Option.some.inj h).symm⟩

/-- Without a stockout the planner emits nothing. -/
theorem plan_of_no_stockout (bank : List Txn) (ing : String) (startInv : Rat)
    (rows : List DayRow) (h : findStockout startInv rows = none) :
    planIngredient bank ing startInv rows = none := by
  unfold planIngredient
  rw [h]

/-- If every balance of the do-nothing replay is non-negative, stockout
detection finds nothing. -/
theorem findStockout_none_of_nonneg :
    ∀ (startInv : Rat) (rows : List DayRow),
      (∀ b ∈ replayBalances startInv rows, 0 ≤ b) →
      findStockout startInv rows = none
  | _, [], _ => rfl
  | inv, r :: rest, h => by
    have h0 : 0 ≤ inv + r.delivery_qty - r.daily_usage := by
      apply h
      unfold replayBalances
      exact List.mem_cons_self _ _
    unfold findStockout
    rw [if_neg (not_lt.mpr h0)]
    exact findStockout_none_of_nonneg _ rest (fun b hb => by
      apply h
      unfold replayBalances
      exact List.mem_cons_of_mem _ hb)

/-- Over a duplicate-free ingredient list, a planner pass tagged by its
ingredient yields at most one recommendation per ingredient name. -/
theorem filterMap_plan_count (g : String → Option ReorderRec)
    (hg : ∀ s r, g s = some r → r.ingredient = s) (ing : String) :
    ∀ l : List String, l.Nodup →
      ((l.filterMap g).filter (fun r => r.ingredient == ing)).length ≤ 1 := by
  intro l
  induction l with
  | nil => intro _; simp
  | cons s rest ih =>
    intro hnd
    rcases List.nodup_cons.mp hnd with ⟨hs, hrest⟩
    rw [List.filterMap_cons]
    cases hgs : g s with
    | none => exact ih hrest
    | some r =>
      by_cases hri : (r.ingredient == ing) = true
      · have hall : (List.filterMap g rest).filter (fun r => r.ingredient == ing) = [] := by
          rw [List.filter_eq_nil_iff]
          intro r2 hr2 hc
          rcases List.mem_filterMap.mp hr2 with ⟨s2, hs2, hg2⟩
          apply hs
          have e1 : s = ing := by rw [← hg s r hgs]; exact beq_iff_eq.mp hri
          have e2 : s2 = ing := by rw [← hg s2 r2 hg2]; exact beq_iff_eq.mp hc
          rw [e1, ← e2]
          exact hs2
        simp [List.filter_cons, hri, hall]
      · simp only [List.filter_cons, hri, if_false]
        exact ih hrest

/-- Inserting into a list is a permutation of consing. -/
theorem insertLe_perm (le : α → α → Bool) (a : α) :
    ∀ l : List α, (insertLe le a l).Perm (a :: l)
  | [] => List.Perm.refl _
  | b :: rest => by
    unfold insertLe
    by_cases h : le a b = true
    · rw [if_pos h]
    · rw [if_neg h]
      exact ((insertLe_perm le a rest).cons b).trans (List.Perm.swap a b rest)

/-- Insertion sort permutes its input. -/
theorem insertionSort_perm (le : α → α → Bool) :
    ∀ l : List α, (insertionSort le l).Perm l
  | [] => List.Perm.refl _
  | a :: rest => by
    show (insertLe le a (insertionSort le rest)).Perm (a :: rest)
    exact (insertLe_perm le a _).trans ((insertionSort_perm le rest).cons a)

/-- The ingredient universe of a run has no duplicates. -/
theorem ingredientsOf_nodup (inputs : Inputs) : (ingredientsOf inputs).Nodup := by
  unfold ingredientsOf
  exact (insertionSort_perm _ _).symm.nodup (List.nodup_dedup _)

/-- Round-half-to-even preserves non-negativity. -/
theorem roundHalfEven_nonneg (q : Rat) (h : 0 ≤ q) : 0 ≤ roundHalfEven q := by
  have hf : 0 ≤ ⌊q⌋ := Int.floor_nonneg.mpr h
  unfold roundHalfEven
  split_ifs <;> omega

/-- Two-decimal rounding preserves non-negativity. -/
theorem round2_nonneg (q : Rat) (h : 0 ≤ q) : 0 ≤ round2 q := by
  have h1 : 0 ≤ roundHalfEven (q * 100) :=
    roundHalfEven_nonneg _ (mul_nonneg h (by norm_num))
  have h2 : (0 : Rat) ≤ (roundHalfEven (q * 100) : Int) := by exact_mod_cast h1
  unfold round2
  exact div_nonneg h2 (by norm_num)

/-! Claim theorems. -/

/-- C1: on a grid of 7 horizon days D1..D7 (dates 1..7) with
`daily_usage = 50` and `delivery_qty = 0` throughout and starting
inventory 120, the reorder planner detects the stockout on D3, orders on
D0 with delivery on D3, sees inventory 20 on the delivery morning and a
remaining need of 250, and emits an order of 230 units costing 115.0 at a
unit cost of 0.5. -/
theorem claim1_literal_scenario :
    planIngredient bankC1 "Bun" 120 rowsC1 =
      some { ingredient := "Bun", supplier := "Supplier", order_date := 0, delivery_date := 3,
             order_qty := 230, unit := "unit", unit_cost_gbp := 1 / 2,
             estimated_cost_gbp := 115, stockout_date_if_no_order := 3 } ∧
    findStockout 120 rowsC1 = some 3 ∧
    invAtDeliveryMorning 120 3 rowsC1 = 20 ∧
    remainingNeed 3 rowsC1 = 250 := by
  with_unfolding_all decide

/-- C2 counterexample: for the ingredient "A" of `bankC2`, the delivery
date of the most recent transaction (`0 + 3 = 3`) is greater than or
equal to the horizon start 3, yet the inventory estimator returns the
transaction quantity 5 rather than 0 — the code's cutoff is strict. -/
theorem claim2_counterexample :
    latestBuy bankC2 "A" = some txnC2 ∧
    (3 : Int) ≤ txnC2.txn_date + LEAD_TIME_DAYS ∧
    computeCurrentInventory 3 bankC2 bankC2 [] "A" = 5 ∧
    (5 : Rat) ≠ 0 := by
  with_unfolding_all decide

/-- C2 (amended): for every ingredient with a purchase transaction whose
most recent transaction's delivery date (`txn_date + LEAD_TIME_DAYS`) is
STRICTLY greater than the horizon start, the inventory estimator returns
current inventory 0. -/
theorem claim2_zero_before_arrival (asof : Int) (bank allBanks : List Txn)
    (actual : List UsageRow) (ing : String) (t : Txn)
    (h1 : latestBuy bank ing = some t)
    (h2 : asof < t.txn_date + LEAD_TIME_DAYS) :
    computeCurrentInventory asof bank allBanks actual ing = 0 := by
  simp [computeCurrentInventory, h1, h2]

/-- Witness for C2's amended theorem at the concrete ledger `bankW2`. -/
theorem claim2_zero_before_arrival_witness :
    latestBuy bankW2 "A" = some txnW2 ∧
    (3 : Int) < txnW2.txn_date + LEAD_TIME_DAYS ∧
    computeCurrentInventory 3 bankW2 bankW2 [] "A" = 0 :=
  ⟨by with_unfolding_all decide, by with_unfolding_all decide,
    claim2_zero_before_arrival 3 bankW2 bankW2 [] "A" txnW2 (by with_unfolding_all decide) (by with_unfolding_all decide)⟩

/-- C3 counterexample: on `inputsC3` the replay described by the claim
yields 20 for ingredient "A" (whose last delivery lands before the
horizon start), but the starting inventory the rest of the pipeline uses
is `max 0 (20 * 0.3) = 6 ≠ 20`: the staggering multiplier and the clamp
sit between the estimator and the planner. -/
theorem claim3_counterexample :
    latestBuy inputsC3.bank "A" = some txnC3 ∧
    txnC3.txn_date + LEAD_TIME_DAYS < inputsC3.start ∧
    computeCurrentInventory inputsC3.start inputsC3.bank inputsC3.allBanks inputsC3.actual "A"
      = 20 ∧
    currentInventory inputsC3 "A" = 6 ∧
    (6 : Rat) ≠ 20 := by
  with_unfolding_all decide

/-- C3 (amended): for every ingredient whose most recent transaction's
delivery date is before the horizon start, the starting inventory used by
the rest of the pipeline equals the day-by-day replayed balance (starting
from the transaction quantity, adding ledger deliveries and subtracting
recorded actual usage up to, but excluding, horizon start) multiplied by
the staggering factor `0.3 + (i % 10) * 0.12` of the ingredient's rank in
the sorted ingredient list, clamped at 0. -/
theorem claim3_staggered_start (inputs : Inputs) (ing : String) (t : Txn)
    (h1 : latestBuy inputs.bank ing = some t)
    (h2 : t.txn_date + LEAD_TIME_DAYS < inputs.start) :
    currentInventory inputs ing =
      max 0 ((simDates (t.txn_date + LEAD_TIME_DAYS) inputs.start).foldl
          (fun inv d => inv + deliveryQty inputs.allBanks d ing - actualUsed inputs.actual d ing)
          t.qty *
        variationFactor ((ingredientsOf inputs).indexOf ing)) := by
  simp only [currentInventory, computeCurrentInventory, h1]
  rw [if_neg (not_lt.mpr h2.le)]

/-- Witness for C3's amended theorem at the concrete run `inputsC3`. -/
theorem claim3_staggered_start_witness :
    latestBuy inputsC3.bank "A" = some txnC3 ∧
    txnC3.txn_date + LEAD_TIME_DAYS < inputsC3.start ∧
    currentInventory inputsC3 "A" =
      max 0 ((simDates (txnC3.txn_date + LEAD_TIME_DAYS) inputsC3.start).foldl
          (fun inv d =>
            inv + deliveryQty inputsC3.allBanks d "A" - actualUsed inputsC3.actual d "A")
          txnC3.qty *
        variationFactor ((ingredientsOf inputsC3).indexOf "A")) :=
  ⟨by with_unfolding_all decide, by with_unfolding_all decide, claim3_staggered_start inputsC3 "A" txnC3 (by with_unfolding_all decide) (by with_unfolding_all decide)⟩

/-- C4 counterexample: in `bankC4` the most recent transaction of "A"
carries unit "ml", but the resolved unit is "g" — the unit of the
first-listed transaction, not of the most recent one. -/
theorem claim4_counterexample :
    (latestBuy bankC4 "A").map (fun t => t.unit) = some "ml" ∧
    infer_unit bankC4 "A" = "g" ∧
    ("g" : String) ≠ "ml" := by
  with_unfolding_all decide

/-- C4 (amended): the resolved unit of measure is the unit recorded on the
ingredient's FIRST-LISTED last-week transaction when any exists; the
keyword/category heuristic is applied only when the last-week ledger has
no transaction for the ingredient. -/
theorem claim4_first_listed_unit (bank : List Txn) (ing : String) :
    (∀ t, bank.find? (fun b => b.ingredient == ing) = some t →
      infer_unit bank ing = t.unit) ∧
    (bank.find? (fun b => b.ingredient == ing) = none →
      infer_unit bank ing = heuristicUnit ing) := by
  constructor
  · intro t h
    simp [infer_unit, ingredientUnits, h]
  · intro h
    simp [infer_unit, ingredientUnits, h]

/-- Witness for C4's amended theorem at the concrete ledger `bankW4`. -/
theorem claim4_first_listed_unit_witness : infer_unit bankW4 "B" = "kg" :=
  (claim4_first_listed_unit bankW4 "B").1 txnW4 (by with_unfolding_all decide)

/-- C5: in every run, each ingredient has at most one recommendation in
the emitted recommendation set. -/
theorem claim5_at_most_one_per_ingredient (inputs : Inputs) (ing : String) :
    ((reorderRows inputs).filter (fun r => r.ingredient == ing)).length ≤ 1 := by
  unfold reorderRows
  exact filterMap_plan_count _ (fun s r h => plan_some_ingredient h) ing _
    (ingredientsOf_nodup inputs)

/-- C6: an ingredient whose do-nothing replay over the horizon never makes
the running inventory negative gets no recommendation. -/
theorem claim6_covered_ingredient_not_recommended (inputs : Inputs) (ing : String)
    (h : ∀ b ∈ replayBalances (currentInventory inputs ing) (gridRows inputs ing), 0 ≤ b) :
    ∀ r ∈ reorderRows inputs, r.ingredient ≠ ing := by
  intro r hr heq
  rcases List.mem_filterMap.mp hr with ⟨s, hs, hplan⟩
  have hsing : s = ing := (plan_some_ingredient hplan).symm.trans heq
  subst hsing
  rw [plan_of_no_stockout _ _ _ _ (findStockout_none_of_nonneg _ _ h)] at hplan
  exact Option.noConfusion hplan

/-- Witness for C6 at the concrete run `inputsW6`, whose replay balances
are all 0. -/
theorem claim6_covered_ingredient_not_recommended_witness :
    (∀ b ∈ replayBalances (currentInventory inputsW6 "A") (gridRows inputsW6 "A"), 0 ≤ b) ∧
    ∀ r ∈ reorderRows inputsW6, r.ingredient ≠ "A" :=
  ⟨by with_unfolding_all decide, claim6_covered_ingredient_not_recommended inputsW6 "A" (by with_unfolding_all decide)⟩

/-- C7: every emitted recommendation satisfies
`delivery_date = order_date + LEAD_TIME_DAYS`,
`order_date = stockout_date - LEAD_TIME_DAYS` and
`delivery_date = stockout_date_if_no_order`. -/
theorem claim7_order_timing (inputs : Inputs) (r : ReorderRec)
    (hr : r ∈ reorderRows inputs) :
    r.delivery_date = r.order_date + LEAD_TIME_DAYS ∧
    r.order_date = r.stockout_date_if_no_order - LEAD_TIME_DAYS ∧
    r.delivery_date = r.stockout_date_if_no_order := by
  rcases List.mem_filterMap.mp hr with ⟨s, hs, hplan⟩
  rcases plan_some_elim hplan with ⟨st, hf, rfl⟩
  exact ⟨rfl, rfl, sub_add_cancel st LEAD_TIME_DAYS⟩

/-- Witness for C7 at the concrete run `inputsW` and its recommendation
`recW`. -/
theorem claim7_order_timing_witness :
    recW ∈ reorderRows inputsW ∧
    recW.delivery_date = recW.order_date + LEAD_TIME_DAYS ∧
    recW.order_date = recW.stockout_date_if_no_order - LEAD_TIME_DAYS ∧
    recW.delivery_date = recW.stockout_date_if_no_order :=
  ⟨by with_unfolding_all decide, claim7_order_timing inputsW recW (by with_unfolding_all decide)⟩

/-- C8: every emitted recommendation has a non-negative order quantity,
and that quantity is
`max(0, remaining_need - max(0, inventory_at_delivery_morning))` (rounded
to two decimals for display) computed on the ingredient's grid slice and
starting inventory. -/
theorem claim8_order_qty_nonneg (inputs : Inputs) (r : ReorderRec)
    (hr : r ∈ reorderRows inputs) :
    0 ≤ r.order_qty ∧
    r.order_qty = round2 (max 0 (remainingNeed r.delivery_date (gridRows inputs r.ingredient) -
      max 0 (invAtDeliveryMorning (currentInventory inputs r.ingredient) r.delivery_date
        (gridRows inputs r.ingredient)))) := by
  rcases List.mem_filterMap.mp hr with ⟨s, hs, hplan⟩
  rcases plan_some_elim hplan with ⟨st, hf, rfl⟩
  exact ⟨round2_nonneg _ (le_max_left _ _), rfl⟩

/-- Witness for C8 at the concrete run `inputsW` and its recommendation
`recW`. -/
theorem claim8_order_qty_nonneg_witness :
    recW ∈ reorderRows inputsW ∧ 0 ≤ recW.order_qty ∧
    recW.order_qty = round2 (max 0 (remainingNeed recW.delivery_date
      (gridRows inputsW recW.ingredient) -
      max 0 (invAtDeliveryMorning (currentInventory inputsW recW.ingredient)
        recW.delivery_date (gridRows inputsW recW.ingredient)))) :=
  ⟨by with_unfolding_all decide, claim8_order_qty_nonneg inputsW recW (by with_unfolding_all decide)⟩

/-- C9: every grid row resolves `daily_usage` by priority: the forecast
value when present, else the actual value when present, else the
ingredient's median daily actual usage when its actual-usage series is
non-empty, else 0. -/
theorem claim9_usage_resolution (inputs : Inputs) (ing : String) (row : DayRow)
    (h : row ∈ gridRows inputs ing) :
    row.daily_usage =
      match lookupForecast inputs.forecast row.date ing with
      | some f => f
      | none =>
        match lookupActual inputs.actual row.date ing with
        | some a => a
        | none =>
          if inputs.actual.filter (fun r => r.ingredient == ing) = [] then 0
          else median ((inputs.actual.filter (fun r => r.ingredient == ing)).map
            (fun r => r.usage)) := by
  rcases List.mem_map.mp h with ⟨d, hd, rfl⟩
  show dailyUsage inputs d ing = _
  unfold dailyUsage fallbackUsage
  cases hf : lookupForecast inputs.forecast d ing with
  | some f => rfl
  | none =>
    cases ha : lookupActual inputs.actual d ing with
    | some a => rfl
    | none =>
      show typicalDaily inputs.actual ing = _
      unfold typicalDaily
      by_cases he : inputs.actual.filter (fun r => r.ingredient == ing) = []
      · rw [if_pos he, he]
        rfl
      · rw [if_neg he]

/-- Witness for C9 at the concrete run `inputsW` and the grid row `rowW`
of ingredient "A". -/
theorem claim9_usage_resolution_witness :
    rowW ∈ gridRows inputsW "A" ∧
    rowW.daily_usage =
      match lookupForecast inputsW.forecast rowW.date "A" with
      | some f => f
      | none =>
        match lookupActual inputsW.actual rowW.date "A" with
        | some a => a
        | none =>
          if inputsW.actual.filter (fun r => r.ingredient == "A") = [] then 0
          else median ((inputsW.actual.filter (fun r => r.ingredient == "A")).map
            (fun r => r.usage)) :=
  ⟨by with_unfolding_all decide, claim9_usage_resolution inputsW "A" rowW (by with_unfolding_all decide)⟩

/-- C10: the starting inventory the reorder planner simulates from is
non-negative for every ingredient: the estimator's replayed balance is
scaled by the staggering factor and clamped with `max 0`, so no
ingredient's horizon starts from a negative balance. -/
theorem claim10_start_inventory_nonneg (inputs : Inputs) (ing : String) :
    0 ≤ currentInventory inputs ing := by
  unfold currentInventory
  exact le_max_left 0 _

end Trace
